/-
Verification of the heuristic ordering policy in
`forex_minute/agent/heuristic/agent.py` (class `Agent`).

The embedding models the agent's mutable state (`demand_history`,
`last_orders`, `avg_demand`) explicitly, and each method as a pure
function.  Python floats are modelled as real numbers.  The flat array
observation is a `List ℝ`; `_array_to_dict_obs` zips it with the fixed
key list (Python `zip` truncates at the shorter argument), and a failed
dictionary lookup (Python `KeyError`) is modelled by `Option`: a call
that would raise returns `none`.  In the source every observation read
happens before any state mutation, so a raising call leaves the state
unchanged; the run function below reflects that.
-/
import Mathlib

noncomputable section

/-- The agent's mutable tracking state: `demand_history` (deque, maxlen 8),
`last_orders` (deque, maxlen 4) with most recent element last, and the
nullable exponential-smoothing estimate `avg_demand`. -/
structure AgentState where
  demand_history : List ℝ
  last_orders : List ℝ
  avg_demand : Option ℝ

/-- Fresh state as set up by `Agent.__init__`: empty deques, `avg_demand = None`. -/
def initAgentState : AgentState :=
  { demand_history := [], last_orders := [], avg_demand := none }

/-- `collections.deque(maxlen := n)` append: push on the right, evicting from
the left whatever exceeds the capacity. -/
def dequeAppend (maxlen : ℕ) (xs : List ℝ) (x : ℝ) : List ℝ :=
  let ys := xs ++ [x]
  ys.drop (ys.length - maxlen)

/-- `self.smoothing_factor = 0.3` from `Agent.__init__`. -/
def smoothing_factor : ℝ := 0.3

/-- `self.safety_stock_factor = 1.5` from `Agent.__init__` (never read by a decision). -/
def safety_stock_factor : ℝ := 1.5

/-- `self.target_inventory_days = 14` from `Agent.__init__` (never read by a decision). -/
def target_inventory_days : ℝ := 14

/-- `Agent._estimate_lead_time`: `2 + position * 1.5`. -/
def estimate_lead_time (position : ℕ) : ℝ :=
  2 + (position : ℝ) * 1.5

/-- `self.obs_keys` from `Agent.__init__`. -/
def obs_keys : List String :=
  ["inventory", "backorders", "orders", "incoming_shipments",
   "holding_cost", "backorder_cost"]

/-- `Agent._array_to_dict_obs`: zip the key list with the flat array
(Python `zip` stops at the shorter of the two). -/
def array_to_dict_obs (obs_array : List ℝ) : List (String × ℝ) :=
  obs_keys.zip obs_array

/-- Dictionary read `observation[key][0]`; `none` models a Python `KeyError`. -/
def dictGet (observation : List (String × ℝ)) (key : String) : Option ℝ :=
  observation.lookup key

/-- Arithmetic mean of a list, as used by `np.std`. -/
def listMean (xs : List ℝ) : ℝ := xs.sum / xs.length

/-- `np.std(xs)` with numpy's default `ddof = 0`: the square root of the
mean squared deviation (division by `n`). -/
def npStd (xs : List ℝ) : ℝ :=
  Real.sqrt (((xs.map fun x => (x - listMean xs) ^ 2).sum) / xs.length)

/-- Modelled from the spec's words ("sample standard deviation"): the
Bessel-corrected sample standard deviation, dividing by `n - 1`.  Written
only to be compared against the source's `np.std`-based estimate. -/
def sample_std_spec (xs : List ℝ) : ℝ :=
  Real.sqrt (((xs.map fun x => (x - listMean xs) ^ 2).sum) / ((xs.length : ℝ) - 1))

/-- Line 81 of the source: the variability estimate used by a decision,
`np.std(list(self.demand_history)) if len(self.demand_history) > 1 else
expected_demand * 0.2`. -/
def demand_std_of (history : List ℝ) (expected_demand : ℝ) : ℝ :=
  if 1 < history.length then npStd history else expected_demand * 0.2

/-- `Agent._calculate_safety_stock`: `1.96 * demand_std * np.sqrt(self.lead_time)`. -/
def calculate_safety_stock (position : ℕ) (demand_std : ℝ) : ℝ :=
  1.96 * demand_std * Real.sqrt (estimate_lead_time position)

/-- `Agent._estimate_demand`: append the demand to `demand_history` and
update `avg_demand` by exponential smoothing (first sample taken as-is).
Returns the new estimate together with the updated state. -/
def estimate_demand (s : AgentState) (current_demand : ℝ) : ℝ × AgentState :=
  let history := dequeAppend 8 s.demand_history current_demand
  let avg :=
    match s.avg_demand with
    | none => current_demand
    | some a => smoothing_factor * current_demand + (1 - smoothing_factor) * a
  (avg, { demand_history := history, last_orders := s.last_orders,
          avg_demand := some avg })

/-- Lines 96–98 of the source: blend with the most recent order when
`last_orders` is non-empty. -/
def blend_last_order (last_orders : List ℝ) (order_quantity : ℝ) : ℝ :=
  match last_orders.getLast? with
  | some last_order => 0.7 * order_quantity + 0.3 * last_order
  | none => order_quantity

/-- Lines 100–102 of the source: upstream amplification for `position > 0`. -/
def position_amplify (position : ℕ) (order_quantity : ℝ) : ℝ :=
  if 0 < position then order_quantity * (1 + 0.1 * (position : ℝ))
  else order_quantity

/-- Line 104 of the source: `min(max(order_quantity, 0), self.action_space.high[0])`. -/
def clamp_order (ceiling order_quantity : ℝ) : ℝ :=
  min (max order_quantity 0) ceiling

/-- `Agent._calculate_order_quantity`: the modified base-stock policy.
`ceiling` is `self.action_space.high[0]`.  Each `let` mirrors one source
line; a missing observation key aborts with `none` before any state
mutation, exactly as the Python `KeyError` would. -/
def calculate_order_quantity (position : ℕ) (ceiling : ℝ)
    (observation : List (String × ℝ)) (s : AgentState) :
    Option (ℝ × AgentState) := do
  let current_inventory ← dictGet observation "inventory"
  let backorders ← dictGet observation "backorders"
  let incoming_shipments ← dictGet observation "incoming_shipments"
  let current_demand ← dictGet observation "orders"
  let (expected_demand, s1) := estimate_demand s current_demand
  let demand_std := demand_std_of s1.demand_history expected_demand
  let safety_stock := calculate_safety_stock position demand_std
  let pipeline_stock := expected_demand * estimate_lead_time position
  let target_stock := safety_stock + pipeline_stock
  let inventory_position :=
    current_inventory - backorders + incoming_shipments + s1.last_orders.sum
  let order_quantity := max 0 (expected_demand + (target_stock - inventory_position))
  let order_quantity := blend_last_order s1.last_orders order_quantity
  let order_quantity := position_amplify position order_quantity
  let order_quantity := clamp_order ceiling order_quantity
  return (order_quantity, s1)

/-- `Agent.choose_action`.  `info` and `action_mask` keep their arbitrary
(unused) payload types; the terminal branch returns `0.0` without touching
the observation; otherwise the computed quantity is appended to
`last_orders` and returned.  The result carries the updated state. -/
def choose_action {I A : Type} (position : ℕ) (ceiling : ℝ) (s : AgentState)
    (observation : Option (List ℝ)) (reward : ℝ)
    (terminated truncated : Bool) (info : I) (action_mask : A) :
    Option (ℝ × AgentState) :=
  if terminated || truncated then some (0.0, s)
  else
    match observation with
    | none => none
    | some obs_array =>
      let obs_dict := array_to_dict_obs obs_array
      match calculate_order_quantity position ceiling obs_dict s with
      | none => none
      | some (order_quantity, s1) =>
        some (order_quantity,
          { s1 with last_orders := dequeAppend 4 s1.last_orders order_quantity })

/-- One environment interaction per period: observation plus the
`(terminated, truncated)` flag pair. -/
def runAgent (position : ℕ) (ceiling : ℝ) (s : AgentState)
    (inputs : List (Option (List ℝ) × Bool × Bool)) : AgentState :=
  match inputs with
  | [] => s
  | (observation, terminated, truncated) :: rest =>
    let s' :=
      match choose_action position ceiling s observation 0 terminated truncated
          () () with
      | some (_, s2) => s2
      | none => s
    runAgent position ceiling s' rest

/-- Pre-blend raw order quantity of a decision, collecting lines 80–93 of
the source as a function of the observation fields actually read. -/
def raw_order_quantity (position : ℕ) (s : AgentState)
    (current_inventory backorders incoming_shipments current_demand : ℝ) : ℝ :=
  let expected_demand := (estimate_demand s current_demand).1
  let s1 := (estimate_demand s current_demand).2
  let demand_std := demand_std_of s1.demand_history expected_demand
  let safety_stock := calculate_safety_stock position demand_std
  let pipeline_stock := expected_demand * estimate_lead_time position
  let target_stock := safety_stock + pipeline_stock
  let inventory_position :=
    current_inventory - backorders + incoming_shipments + s1.last_orders.sum
  max 0 (expected_demand + (target_stock - inventory_position))

/-- Spec wording, step 6 of §4.1: net inventory position. -/
def inventory_position_spec (inventory backorders incoming_shipments : ℝ)
    (last_orders : List ℝ) : ℝ :=
  inventory - backorders + incoming_shipments + last_orders.sum

/-- Spec wording, step 3 of §4.1: safety stock `1.96 × demandStd × sqrt(leadTime)`. -/
def safety_stock_spec (demand_std lead_time : ℝ) : ℝ :=
  1.96 * demand_std * Real.sqrt lead_time

/-- Spec wording, steps 4–5 of §4.1: target stock = safety stock + pipeline stock. -/
def target_stock_spec (safety smoothed lead_time : ℝ) : ℝ :=
  safety + smoothed * lead_time

/-- Spec wording, step 7 of §4.1: raw order quantity
`max(0, smoothedDemand + (targetStock − inventoryPosition))`. -/
def raw_order_spec (smoothed target inv_pos : ℝ) : ℝ :=
  max 0 (smoothed + (target - inv_pos))


def decided_quantity (position : ℕ) (ceiling : ℝ) (s : AgentState)
    (inv back ship dem : ℝ) : ℝ :=
  clamp_order ceiling (position_amplify position
    (blend_last_order s.last_orders
      (raw_order_quantity position s inv back ship dem)))

def decided_state (position : ℕ) (ceiling : ℝ) (s : AgentState)
    (inv back ship dem : ℝ) : AgentState :=
  { (estimate_demand s dem).2 with
    last_orders := dequeAppend 4 ((estimate_demand s dem).2).last_orders
      (decided_quantity position ceiling s inv back ship dem) }

lemma estimate_demand_last_orders (s : AgentState) (d : ℝ) :
    ((estimate_demand s d).2).last_orders = s.last_orders := rfl

lemma estimate_demand_history (s : AgentState) (d : ℝ) :
    ((estimate_demand s d).2).demand_history = dequeAppend 8 s.demand_history d := rfl

lemma dequeAppend_length_le (maxlen : ℕ) (xs : List ℝ) (x : ℝ) :
    (dequeAppend maxlen xs x).length ≤ maxlen := by
  simp [dequeAppend]
  omega

lemma dequeAppend_evict (maxlen : ℕ) (xs : List ℝ) (x : ℝ)
    (hpos : 0 < maxlen) (hlen : xs.length = maxlen) :
    dequeAppend maxlen xs x = xs.drop 1 ++ [x] := by
  have h1 : (xs ++ [x]).length - maxlen = 1 := by simp [hlen]
  have h2 : (1 : ℕ) ≤ xs.length := by omega
  simp only [dequeAppend, h1]
  exact List.drop_append_of_le_length h2

lemma calculate_order_quantity_eq (position : ℕ) (ceiling : ℝ)
    (observation : List (String × ℝ)) (s : AgentState) (inv back ship dem : ℝ)
    (hinv : dictGet observation "inventory" = some inv)
    (hback : dictGet observation "backorders" = some back)
    (hship : dictGet observation "incoming_shipments" = some ship)
    (hdem : dictGet observation "orders" = some dem) :
    calculate_order_quantity position ceiling observation s =
      some (clamp_order ceiling (position_amplify position
              (blend_last_order s.last_orders
                (raw_order_quantity position s inv back ship dem))),
            (estimate_demand s dem).2) := by
  simp [calculate_order_quantity, hinv, hback, hship, hdem, raw_order_quantity,
    estimate_demand]

lemma calculate_order_quantity_inv (position : ℕ) (ceiling : ℝ)
    (observation : List (String × ℝ)) (s : AgentState) (p : ℝ × AgentState)
    (h : calculate_order_quantity position ceiling observation s = some p) :
    ∃ inv back ship dem,
      dictGet observation "inventory" = some inv ∧
      dictGet observation "backorders" = some back ∧
      dictGet observation "incoming_shipments" = some ship ∧
      dictGet observation "orders" = some dem ∧
      p = (clamp_order ceiling (position_amplify position
            (blend_last_order s.last_orders
              (raw_order_quantity position s inv back ship dem))),
           (estimate_demand s dem).2) := by
  rcases hinv : dictGet observation "inventory" with _ | inv
  · simp [calculate_order_quantity, hinv] at h
  rcases hback : dictGet observation "backorders" with _ | back
  · simp [calculate_order_quantity, hinv, hback] at h
  rcases hship : dictGet observation "incoming_shipments" with _ | ship
  · simp [calculate_order_quantity, hinv, hback, hship] at h
  rcases hdem : dictGet observation "orders" with _ | dem
  · simp [calculate_order_quantity, hinv, hback, hship, hdem] at h
  refine ⟨inv, back, ship, dem, rfl, rfl, rfl, rfl, ?_⟩
  rw [calculate_order_quantity_eq position ceiling observation s inv back ship dem
    hinv hback hship hdem] at h
  exact (Option.some.inj h).symm

lemma choose_action_eq {I A : Type} (position : ℕ) (ceiling : ℝ) (s : AgentState)
    (arr : List ℝ) (reward : ℝ) (info : I) (action_mask : A) (inv back ship dem : ℝ)
    (hinv : dictGet (array_to_dict_obs arr) "inventory" = some inv)
    (hback : dictGet (array_to_dict_obs arr) "backorders" = some back)
    (hship : dictGet (array_to_dict_obs arr) "incoming_shipments" = some ship)
    (hdem : dictGet (array_to_dict_obs arr) "orders" = some dem) :
    choose_action position ceiling s (some arr) reward false false info action_mask =
      some (decided_quantity position ceiling s inv back ship dem,
            decided_state position ceiling s inv back ship dem) := by
  simp only [choose_action, Bool.or_self, Bool.false_eq_true, if_false]
  rw [calculate_order_quantity_eq position ceiling (array_to_dict_obs arr) s
    inv back ship dem hinv hback hship hdem]
  rfl

lemma choose_action_inv {I A : Type} (position : ℕ) (ceiling : ℝ) (s : AgentState)
    (observation : Option (List ℝ)) (reward : ℝ) (terminated truncated : Bool)
    (info : I) (action_mask : A) (q : ℝ) (s' : AgentState)
    (h : choose_action position ceiling s observation reward terminated truncated
        info action_mask = some (q, s')) :
    (q = 0 ∧ s' = s) ∨
    ∃ arr inv back ship dem, observation = some arr ∧
      dictGet (array_to_dict_obs arr) "inventory" = some inv ∧
      dictGet (array_to_dict_obs arr) "backorders" = some back ∧
      dictGet (array_to_dict_obs arr) "incoming_shipments" = some ship ∧
      dictGet (array_to_dict_obs arr) "orders" = some dem ∧
      q = decided_quantity position ceiling s inv back ship dem ∧
      s' = decided_state position ceiling s inv back ship dem := by
  by_cases hterm : (terminated || truncated) = true
  · left
    simp [choose_action, hterm] at h
    obtain ⟨h1, h2⟩ := h
    refine ⟨?_, h2.symm⟩
    rw [← h1]
    norm_num
  · right
    have hb : terminated = false ∧ truncated = false := by
      cases terminated <;> cases truncated <;> simp_all
    obtain ⟨ht1, ht2⟩ := hb
    subst ht1; subst ht2
    rcases observation with _ | arr
    · simp [choose_action] at h
    rcases hc : calculate_order_quantity position ceiling (array_to_dict_obs arr) s
      with _ | p
    · simp [choose_action, hc] at h
    obtain ⟨inv, back, ship, dem, hinv, hback, hship, hdem, hp⟩ :=
      calculate_order_quantity_inv position ceiling (array_to_dict_obs arr) s p hc
    have he := choose_action_eq position ceiling s arr reward info action_mask
      inv back ship dem hinv hback hship hdem
    rw [he] at h
    have h' := Option.some.inj h
    exact ⟨arr, inv, back, ship, dem, rfl, hinv, hback, hship, hdem,
      (congrArg Prod.fst h').symm, (congrArg Prod.snd h').symm⟩

lemma choose_action_bounds_preserved {I A : Type} (position : ℕ) (ceiling : ℝ)
    (s : AgentState) (observation : Option (List ℝ)) (reward : ℝ)
    (terminated truncated : Bool) (info : I) (action_mask : A)
    (q : ℝ) (s2 : AgentState)
    (h : choose_action position ceiling s observation reward terminated truncated
        info action_mask = some (q, s2))
    (h8 : s.demand_history.length ≤ 8) (h4 : s.last_orders.length ≤ 4) :
    s2.demand_history.length ≤ 8 ∧ s2.last_orders.length ≤ 4 := by
  rcases choose_action_inv position ceiling s observation reward terminated
      truncated info action_mask q s2 h with ⟨_, h2⟩ |
      ⟨arr, inv, back, ship, dem, _, _, _, _, _, _, h2⟩
  · subst h2; exact ⟨h8, h4⟩
  · subst h2
    constructor
    · show ((estimate_demand s dem).2).demand_history.length ≤ 8
      rw [estimate_demand_history]
      exact dequeAppend_length_le 8 s.demand_history dem
    · exact dequeAppend_length_le 4 _ _

lemma runAgent_bounds_aux (position : ℕ) (ceiling : ℝ) :
    ∀ (inputs : List (Option (List ℝ) × Bool × Bool)) (s : AgentState),
      s.demand_history.length ≤ 8 → s.last_orders.length ≤ 4 →
      (runAgent position ceiling s inputs).demand_history.length ≤ 8 ∧
      (runAgent position ceiling s inputs).last_orders.length ≤ 4 := by
  intro inputs
  induction inputs with
  | nil => intro s h8 h4; exact ⟨h8, h4⟩
  | cons i rest ih =>
    intro s h8 h4
    obtain ⟨obs, term, trunc⟩ := i
    simp only [runAgent]
    rcases hc : choose_action position ceiling s obs 0 term trunc () () with _ | p
    · simp only [hc]
      exact ih s h8 h4
    · obtain ⟨q, s2⟩ := p
      simp only [hc]
      obtain ⟨g8, g4⟩ := choose_action_bounds_preserved position ceiling s obs 0
        term trunc () () q s2 hc h8 h4
      exact ih s2 g8 g4

/-- Claim C1: every order quantity returned by `choose_action` lies in the
closed interval `[0, orderCeiling]` (the action-space upper bound, assumed
non-negative), both on the clamped normal path and on the terminal path. -/
theorem claim_c1_choose_action_bounded {I A : Type} (position : ℕ) (ceiling : ℝ)
    (s : AgentState) (observation : Option (List ℝ)) (reward : ℝ)
    (terminated truncated : Bool) (info : I) (action_mask : A) (q : ℝ)
    (s' : AgentState) (hceil : 0 ≤ ceiling)
    (h : choose_action position ceiling s observation reward terminated truncated
        info action_mask = some (q, s')) :
    0 ≤ q ∧ q ≤ ceiling := by
  rcases choose_action_inv position ceiling s observation reward terminated
      truncated info action_mask q s' h with ⟨h1, _⟩ |
      ⟨arr, inv, back, ship, dem, _, _, _, _, _, hq, _⟩
  · subst h1; exact ⟨le_refl 0, hceil⟩
  · subst hq
    unfold decided_quantity clamp_order
    exact ⟨le_min (le_max_right _ 0) hceil, min_le_right _ _⟩

/-- Witness for C1 at a concrete terminal call with ceiling 100. -/
theorem claim_c1_witness : 0 ≤ (0 : ℝ) ∧ (0 : ℝ) ≤ 100 :=
  claim_c1_choose_action_bounded 0 100 initAgentState none 0 true false () () 0
    initAgentState (by norm_num) (by norm_num [choose_action])

/-- Claim C2: a call with `terminated = true` or `truncated = true` returns
exactly `0.0` and leaves the whole state (hence `demand_history`,
`last_orders` and `avg_demand`) unchanged; as the state is returned intact,
repeated terminal calls behave identically. -/
theorem claim_c2_terminal_no_mutation {I A : Type} (position : ℕ) (ceiling : ℝ)
    (s : AgentState) (observation : Option (List ℝ)) (reward : ℝ)
    (terminated truncated : Bool) (info : I) (action_mask : A)
    (h : terminated = true ∨ truncated = true) :
    choose_action position ceiling s observation reward terminated truncated
      info action_mask = some (0, s) := by
  have hterm : (terminated || truncated) = true := by
    rcases h with h | h <;> simp [h]
  simp [choose_action, hterm]
  norm_num

/-- Witness for C2 at a concrete state and observation. -/
theorem claim_c2_witness :
    choose_action 1 50 ⟨[1, 2], [3], some 4⟩ (some [9, 9, 9, 9, 9, 9]) 7 true
      false () () = some (0, ⟨[1, 2], [3], some 4⟩) :=
  claim_c2_terminal_no_mutation 1 50 ⟨[1, 2], [3], some 4⟩
    (some [9, 9, 9, 9, 9, 9]) 7 true false () () (Or.inl rfl)

/-- Claim C3: across any sequence of `choose_action` calls from a fresh
instance, `demand_history` holds at most 8 elements and `last_orders` at
most 4; and an append at capacity evicts the oldest element first. -/
theorem claim_c3_bounded_buffers (position : ℕ) (ceiling : ℝ)
    (inputs : List (Option (List ℝ) × Bool × Bool)) :
    ((runAgent position ceiling initAgentState inputs).demand_history.length ≤ 8 ∧
     (runAgent position ceiling initAgentState inputs).last_orders.length ≤ 4) ∧
    ∀ (maxlen : ℕ) (xs : List ℝ) (x : ℝ), 0 < maxlen → xs.length = maxlen →
      dequeAppend maxlen xs x = xs.drop 1 ++ [x] := by
  refine ⟨runAgent_bounds_aux position ceiling inputs initAgentState
    (by simp [initAgentState]) (by simp [initAgentState]), ?_⟩
  intro maxlen xs x hpos hlen
  exact dequeAppend_evict maxlen xs x hpos hlen

/-- Witness for C3: a one-call run keeps the bounds, and a full 8-element
history evicts its oldest entry on append. -/
theorem claim_c3_witness :
    ((runAgent 0 100 initAgentState [(none, true, false)]).demand_history.length ≤ 8 ∧
     (runAgent 0 100 initAgentState [(none, true, false)]).last_orders.length ≤ 4) ∧
    dequeAppend 8 [0, 1, 2, 3, 4, 5, 6, 7] 9 = [1, 2, 3, 4, 5, 6, 7, 9] :=
  ⟨(claim_c3_bounded_buffers 0 100 [(none, true, false)]).1,
   (claim_c3_bounded_buffers 0 100 [(none, true, false)]).2 8
     [0, 1, 2, 3, 4, 5, 6, 7] 9 (by norm_num) (by simp)⟩

lemma npStd_zero_twenty : npStd [0, 20] = 10 := by
  have hm : listMean [0, 20] = 10 := by norm_num [listMean]
  rw [npStd, hm]
  norm_num
  rw [show (100 : ℝ) = 10 ^ 2 by norm_num]
  exact Real.sqrt_sq (by norm_num)

lemma sample_std_zero_twenty : sample_std_spec [0, 20] = Real.sqrt 200 := by
  have hm : listMean [0, 20] = 10 := by norm_num [listMean]
  rw [sample_std_spec, hm]
  norm_num

/-- Counterexample to C4 as stated: at the reachable two-element history
`[0, 20]`, the estimate the code uses (`np.std`, dividing by `n`) differs
from the sample standard deviation (dividing by `n − 1`). -/
theorem claim_c4_counterexample :
    ((estimate_demand ⟨[0], [], some 0⟩ 20).2).demand_history = [0, 20] ∧
    demand_std_of [0, 20] ((estimate_demand ⟨[0], [], some 0⟩ 20).1) ≠
      sample_std_spec [0, 20] := by
  refine ⟨rfl, ?_⟩
  have hd : demand_std_of [0, 20] ((estimate_demand ⟨[0], [], some 0⟩ 20).1) =
      npStd [0, 20] := by
    rw [demand_std_of, if_pos (by simp)]
  rw [hd, npStd_zero_twenty, sample_std_zero_twenty]
  intro heq
  have hsq := Real.sq_sqrt (show (0 : ℝ) ≤ 200 by norm_num)
  rw [← heq] at hsq
  norm_num at hsq

/-- Claim C4 (amended): the variability estimate used by a decision is the
population (uncorrected, divide-by-`n`) standard deviation of
`demand_history` — the non-negative square root of the mean squared
deviation — when the history holds at least 2 values, and `0.2 ×` the
smoothed demand estimate otherwise. -/
theorem claim_c4_population_std (history : List ℝ) (expected : ℝ) :
    (2 ≤ history.length →
      0 ≤ demand_std_of history expected ∧
      demand_std_of history expected ^ 2 =
        ((history.map fun x => (x - listMean history) ^ 2).sum) / history.length) ∧
    (history.length < 2 → demand_std_of history expected = expected * 0.2) := by
  constructor
  · intro h2
    rw [demand_std_of, if_pos (by omega), npStd]
    refine ⟨Real.sqrt_nonneg _, ?_⟩
    apply Real.sq_sqrt
    apply div_nonneg
    · apply List.sum_nonneg
      intro y hy
      obtain ⟨x, _, rfl⟩ := List.mem_map.mp hy
      positivity
    · positivity
  · intro h2
    rw [demand_std_of, if_neg (by omega)]

/-- Witness for the amended C4 on the histories `[0, 20]` and `[0]`. -/
theorem claim_c4_witness :
    (0 ≤ demand_std_of [0, 20] 6 ∧ demand_std_of [0, 20] 6 ^ 2 = 100) ∧
    demand_std_of [0] 7 = 7 * 0.2 := by
  constructor
  · obtain ⟨h1, h2⟩ := (claim_c4_population_std [0, 20] 6).1 (by simp)
    refine ⟨h1, ?_⟩
    rw [h2]
    norm_num [listMean]
  · exact (claim_c4_population_std [0] 7).2 (by simp)

/-- Claim C5: in every non-terminal decision the net inventory position is
`inventory − backorders + incomingShipments + sum(lastOrders)`, and the raw
(pre-blend, pre-amplification, pre-clamp) order quantity is
`max(0, smoothedDemand + (targetStock − inventoryPosition))`, where
`targetStock = safetyStock + smoothedDemand × leadTime` and
`safetyStock = 1.96 × demandStd × sqrt(leadTime)`. -/
theorem claim_c5_base_stock_formula (position : ℕ) (ceiling : ℝ)
    (observation : List (String × ℝ)) (s : AgentState) (inv back ship dem : ℝ)
    (hinv : dictGet observation "inventory" = some inv)
    (hback : dictGet observation "backorders" = some back)
    (hship : dictGet observation "incoming_shipments" = some ship)
    (hdem : dictGet observation "orders" = some dem) :
    calculate_order_quantity position ceiling observation s =
      some (clamp_order ceiling (position_amplify position
              (blend_last_order s.last_orders
                (raw_order_quantity position s inv back ship dem))),
            (estimate_demand s dem).2) ∧
    raw_order_quantity position s inv back ship dem =
      raw_order_spec ((estimate_demand s dem).1)
        (target_stock_spec
          (safety_stock_spec
            (demand_std_of (dequeAppend 8 s.demand_history dem)
              ((estimate_demand s dem).1))
            (estimate_lead_time position))
          ((estimate_demand s dem).1) (estimate_lead_time position))
        (inventory_position_spec inv back ship s.last_orders) := by
  refine ⟨calculate_order_quantity_eq position ceiling observation s inv back
    ship dem hinv hback hship hdem, ?_⟩
  rfl

/-- Witness for C5 on a fresh instance and the observation
`[10, 0, 5, 0, 1, 2]`. -/
theorem claim_c5_witness :
    calculate_order_quantity 0 100 (array_to_dict_obs [10, 0, 5, 0, 1, 2])
        initAgentState =
      some (clamp_order 100 (position_amplify 0
              (blend_last_order initAgentState.last_orders
                (raw_order_quantity 0 initAgentState 10 0 0 5))),
            (estimate_demand initAgentState 5).2) ∧
    raw_order_quantity 0 initAgentState 10 0 0 5 =
      raw_order_spec ((estimate_demand initAgentState 5).1)
        (target_stock_spec
          (safety_stock_spec
            (demand_std_of (dequeAppend 8 initAgentState.demand_history 5)
              ((estimate_demand initAgentState 5).1))
            (estimate_lead_time 0))
          ((estimate_demand initAgentState 5).1) (estimate_lead_time 0))
        (inventory_position_spec 10 0 0 initAgentState.last_orders) :=
  claim_c5_base_stock_formula 0 100 (array_to_dict_obs [10, 0, 5, 0, 1, 2])
    initAgentState 10 0 0 5 rfl rfl rfl rfl

/-- Claim C6: in every non-terminal decision, the quantity entering
position amplification is `0.7 × raw + 0.3 ×` the most recent entry of
`last_orders` when that buffer is non-empty, and the raw quantity
unblended when it is empty (first order of an episode). -/
theorem claim_c6_bullwhip_blend (position : ℕ) (ceiling : ℝ)
    (observation : List (String × ℝ)) (s : AgentState) (inv back ship dem : ℝ)
    (hinv : dictGet observation "inventory" = some inv)
    (hback : dictGet observation "backorders" = some back)
    (hship : dictGet observation "incoming_shipments" = some ship)
    (hdem : dictGet observation "orders" = some dem) :
    (s.last_orders = [] →
      calculate_order_quantity position ceiling observation s =
        some (clamp_order ceiling (position_amplify position
                (raw_order_quantity position s inv back ship dem)),
              (estimate_demand s dem).2)) ∧
    (∀ l, s.last_orders.getLast? = some l →
      calculate_order_quantity position ceiling observation s =
        some (clamp_order ceiling (position_amplify position
                (0.7 * raw_order_quantity position s inv back ship dem + 0.3 * l)),
              (estimate_demand s dem).2)) := by
  have he := calculate_order_quantity_eq position ceiling observation s inv back
    ship dem hinv hback hship hdem
  constructor
  · intro h0
    rw [he]
    simp [blend_last_order, h0]
  · intro l hl
    rw [he]
    simp [blend_last_order, hl]

/-- Witness for C6 at a state whose `last_orders` is `[2, 3]`. -/
theorem claim_c6_witness :
    calculate_order_quantity 2 100 (array_to_dict_obs [10, 0, 5, 0, 1, 2])
        ⟨[], [2, 3], some 1⟩ =
      some (clamp_order 100 (position_amplify 2
              (0.7 * raw_order_quantity 2 ⟨[], [2, 3], some 1⟩ 10 0 0 5 + 0.3 * 3)),
            (estimate_demand ⟨[], [2, 3], some 1⟩ 5).2) :=
  (claim_c6_bullwhip_blend 2 100 (array_to_dict_obs [10, 0, 5, 0, 1, 2])
    ⟨[], [2, 3], some 1⟩ 10 0 0 5 rfl rfl rfl rfl).2 3 rfl

/-- Claim C7: after the first successful non-terminal call on a fresh
instance (`avg_demand` initially null), the smoothed demand estimate equals
the observation's `orders` value exactly; after a call from a state with a
prior estimate `a`, it equals
`smoothing_factor * demand + (1 - smoothing_factor) * a`. -/
theorem claim_c7_smoothing {I A : Type} (position : ℕ) (ceiling : ℝ)
    (arr : List ℝ) (reward : ℝ) (info : I) (action_mask : A)
    (inv back ship dem : ℝ)
    (hinv : dictGet (array_to_dict_obs arr) "inventory" = some inv)
    (hback : dictGet (array_to_dict_obs arr) "backorders" = some back)
    (hship : dictGet (array_to_dict_obs arr) "incoming_shipments" = some ship)
    (hdem : dictGet (array_to_dict_obs arr) "orders" = some dem) :
    (choose_action position ceiling initAgentState (some arr) reward false false
        info action_mask =
      some (decided_quantity position ceiling initAgentState inv back ship dem,
            decided_state position ceiling initAgentState inv back ship dem) ∧
      (decided_state position ceiling initAgentState inv back ship dem).avg_demand
        = some dem) ∧
    (∀ (s : AgentState) (a : ℝ), s.avg_demand = some a →
      choose_action position ceiling s (some arr) reward false false info
          action_mask =
        some (decided_quantity position ceiling s inv back ship dem,
              decided_state position ceiling s inv back ship dem) ∧
      (decided_state position ceiling s inv back ship dem).avg_demand =
        some (smoothing_factor * dem + (1 - smoothing_factor) * a)) := by
  constructor
  · exact ⟨choose_action_eq position ceiling initAgentState arr reward info
      action_mask inv back ship dem hinv hback hship hdem, rfl⟩
  · intro s a ha
    refine ⟨choose_action_eq position ceiling s arr reward info action_mask inv
      back ship dem hinv hback hship hdem, ?_⟩
    simp [decided_state, estimate_demand, ha]

/-- Witness for C7: first call on a fresh instance with demand 5, and a
later call from a state whose prior estimate is 4. -/
theorem claim_c7_witness :
    (choose_action 0 100 initAgentState (some [10, 0, 5, 0, 1, 2]) 0 false false
        () () =
      some (decided_quantity 0 100 initAgentState 10 0 0 5,
            decided_state 0 100 initAgentState 10 0 0 5) ∧
      (decided_state 0 100 initAgentState 10 0 0 5).avg_demand = some 5) ∧
    (choose_action 0 100 ⟨[7], [2], some 4⟩ (some [10, 0, 5, 0, 1, 2]) 0 false
        false () () =
      some (decided_quantity 0 100 ⟨[7], [2], some 4⟩ 10 0 0 5,
            decided_state 0 100 ⟨[7], [2], some 4⟩ 10 0 0 5) ∧
      (decided_state 0 100 ⟨[7], [2], some 4⟩ 10 0 0 5).avg_demand =
        some (smoothing_factor * 5 + (1 - smoothing_factor) * 4)) :=
  ⟨(claim_c7_smoothing 0 100 [10, 0, 5, 0, 1, 2] 0 () () 10 0 0 5
      rfl rfl rfl rfl).1,
   (claim_c7_smoothing 0 100 [10, 0, 5, 0, 1, 2] 0 () () 10 0 0 5
      rfl rfl rfl rfl).2 ⟨[7], [2], some 4⟩ 4 rfl⟩

/-- Claim C8: with everything else fixed, the returned order quantity is
monotonically non-decreasing in the action-space ceiling. -/
theorem claim_c8_ceiling_monotone {I A : Type} (position : ℕ) (c1 c2 : ℝ)
    (s : AgentState) (observation : Option (List ℝ)) (reward : ℝ)
    (terminated truncated : Bool) (info : I) (action_mask : A)
    (q1 q2 : ℝ) (s1 s2 : AgentState) (hc : c1 ≤ c2)
    (h1 : choose_action position c1 s observation reward terminated truncated
        info action_mask = some (q1, s1))
    (h2 : choose_action position c2 s observation reward terminated truncated
        info action_mask = some (q2, s2)) :
    q1 ≤ q2 := by
  by_cases hterm : (terminated || truncated) = true
  · simp [choose_action, hterm] at h1 h2
    rw [← h1.1, ← h2.1]
  · have hb : terminated = false ∧ truncated = false := by
      cases terminated <;> cases truncated <;> simp_all
    obtain ⟨hta, htb⟩ := hb
    subst hta; subst htb
    rcases observation with _ | arr
    · simp [choose_action] at h1
    rcases hcalc : calculate_order_quantity position c1 (array_to_dict_obs arr) s
      with _ | p
    · simp [choose_action, hcalc] at h1
    obtain ⟨inv, back, ship, dem, hinv, hback, hship, hdem, hp⟩ :=
      calculate_order_quantity_inv position c1 (array_to_dict_obs arr) s p hcalc
    rw [choose_action_eq position c1 s arr reward info action_mask inv back ship
      dem hinv hback hship hdem] at h1
    rw [choose_action_eq position c2 s arr reward info action_mask inv back ship
      dem hinv hback hship hdem] at h2
    have e1 : decided_quantity position c1 s inv back ship dem = q1 :=
      congrArg Prod.fst (Option.some.inj h1)
    have e2 : decided_quantity position c2 s inv back ship dem = q2 :=
      congrArg Prod.fst (Option.some.inj h2)
    rw [← e1, ← e2]
    unfold decided_quantity clamp_order
    exact min_le_min le_rfl hc

/-- Witness for C8 at two concrete terminal calls with ceilings 1 and 2. -/
theorem claim_c8_witness :
    choose_action 0 1 initAgentState none 0 true false () () =
      some (0, initAgentState) ∧
    choose_action 0 2 initAgentState none 0 true false () () =
      some (0, initAgentState) ∧
    (0 : ℝ) ≤ 0 :=
  ⟨by norm_num [choose_action], by norm_num [choose_action],
   claim_c8_ceiling_monotone 0 1 2 initAgentState none 0 true false () () 0 0
     initAgentState initAgentState (by norm_num) (by norm_num [choose_action])
     (by norm_num [choose_action])⟩

/-- Claim C9: two calls from the same internal state whose observations
agree on `inventory`, `backorders`, `orders` and `incoming_shipments` — but
differ arbitrarily in `holding_cost`, `backorder_cost`, `reward`, `info` and
`action_mask` — return the same quantity and the same resulting state. -/
theorem claim_c9_cost_noninterference {I1 A1 I2 A2 : Type} (position : ℕ)
    (ceiling : ℝ) (s : AgentState) (arr1 arr2 : List ℝ) (r1 r2 : ℝ)
    (terminated truncated : Bool) (i1 : I1) (m1 : A1) (i2 : I2) (m2 : A2)
    (hinv : dictGet (array_to_dict_obs arr1) "inventory" =
            dictGet (array_to_dict_obs arr2) "inventory")
    (hback : dictGet (array_to_dict_obs arr1) "backorders" =
             dictGet (array_to_dict_obs arr2) "backorders")
    (hord : dictGet (array_to_dict_obs arr1) "orders" =
            dictGet (array_to_dict_obs arr2) "orders")
    (hship : dictGet (array_to_dict_obs arr1) "incoming_shipments" =
             dictGet (array_to_dict_obs arr2) "incoming_shipments") :
    choose_action position ceiling s (some arr1) r1 terminated truncated i1 m1 =
    choose_action position ceiling s (some arr2) r2 terminated truncated i2 m2
    := by
  have hcalc : calculate_order_quantity position ceiling (array_to_dict_obs arr1)
      s = calculate_order_quantity position ceiling (array_to_dict_obs arr2) s
      := by
    simp only [calculate_order_quantity]
    rw [hinv, hback, hship, hord]
  by_cases hterm : (terminated || truncated) = true
  · simp [choose_action, hterm]
  · simp [choose_action, hterm]
    rw [hcalc]

/-- Witness for C9: observations differing in both cost fields, with
different rewards, infos and action masks. -/
theorem claim_c9_witness :
    dictGet (array_to_dict_obs [10, 0, 5, 0, 1, 2]) "inventory" =
      dictGet (array_to_dict_obs [10, 0, 5, 0, 99, 50]) "inventory" ∧
    dictGet (array_to_dict_obs [10, 0, 5, 0, 1, 2]) "backorders" =
      dictGet (array_to_dict_obs [10, 0, 5, 0, 99, 50]) "backorders" ∧
    dictGet (array_to_dict_obs [10, 0, 5, 0, 1, 2]) "orders" =
      dictGet (array_to_dict_obs [10, 0, 5, 0, 99, 50]) "orders" ∧
    dictGet (array_to_dict_obs [10, 0, 5, 0, 1, 2]) "incoming_shipments" =
      dictGet (array_to_dict_obs [10, 0, 5, 0, 99, 50]) "incoming_shipments" ∧
    choose_action 1 100 initAgentState (some [10, 0, 5, 0, 1, 2]) 0 false false
        () () =
      choose_action 1 100 initAgentState (some [10, 0, 5, 0, 99, 50]) 3 false
        false true 7 :=
  ⟨rfl, rfl, rfl, rfl,
   claim_c9_cost_noninterference 1 100 initAgentState [10, 0, 5, 0, 1, 2]
     [10, 0, 5, 0, 99, 50] 0 3 false false () () true 7 rfl rfl rfl rfl⟩

/-- Claim C10: a terminal call returns `0.0` without accessing the
observation: it succeeds for every observation, including a missing one
(`none`) and an empty array — whereas non-terminal calls on those
observations fail. -/
theorem claim_c10_terminal_ignores_observation {I A : Type} (position : ℕ)
    (ceiling : ℝ) (s : AgentState) (observation : Option (List ℝ)) (reward : ℝ)
    (truncated : Bool) (info : I) (action_mask : A) :
    (∃ s', choose_action position ceiling s observation reward true truncated
        info action_mask = some (0, s')) ∧
    choose_action position ceiling s none reward false false info action_mask
      = none ∧
    choose_action position ceiling s (some []) reward false false info
      action_mask = none := by
  refine ⟨⟨s, ?_⟩, rfl, rfl⟩
  simp [choose_action]
  norm_num

end
